import Mathlib

/-
  Shallow embedding of the convex-stagehand job-orchestration component.

  Sources embedded:
  - src/src/component/jobs.ts        (scheduleJob, cancelJob, completeJob, failJob, linkSession)
  - executor module (executeJob)
  - sessions module (cleanupSession with 3-attempt retry, markCleanupSuccess,
    markCleanupFailed, recordCleanupError, incrementCleanupAttempt)
  - timeout module (watchdog)
  - src/src/component/webhooks.ts    (sendWebhook)
  - src/src/component/cronJobs.ts    (createCronJob, getCronJob)

  Modelling conventions:
  - The Convex database is a record of partial maps keyed by Nat record ids.
  - Every `ctx.scheduler.runAfter(delayMs, fn, args)` call is modelled by
    emitting a `Scheduled` value (delay in milliseconds plus a `Task` naming
    the target function and its arguments); the emitted list preserves the
    source order of the runAfter calls.
  - A Convex mutation that throws is modelled as `Except.error msg`; a throw
    rolls the transaction back, so an `Except.error` result means no mutation.
  - `Date.now()` is passed in as an explicit `now : Int` argument.
  - Opaque `v.any()` payloads (params, result, jobParams) are modelled as
    `String`; nothing in the embedded code inspects them.
  - External HTTP calls (Browserbase release, webhook fetch, cron-parser) are
    modelled as explicit outcome arguments, per their documented semantics.
-/

namespace ConvexStagehand

abbrev JobId := Nat
abbrev SessionRecordId := Nat
abbrev CronJobId := Nat

/-- Job lifecycle status, from the jobs table schema. -/
inductive JobStatus
  | pending
  | queued
  | running
  | completed
  | failed
  | cancelled
deriving DecidableEq, Repr

/-- Browserbase-reported session status, from the sessions table schema. -/
inductive SessionStatus
  | RUNNING
  | ERROR
  | TIMED_OUT
  | COMPLETED
deriving DecidableEq, Repr

/-- Cleanup bookkeeping status, from the sessions table schema. -/
inductive CleanupStatus
  | pending
  | success
  | failed
deriving DecidableEq, Repr

/-- Webhook delivery status, from the webhookDeliveries table schema. -/
inductive DeliveryStatus
  | pending
  | sent
  | failed
deriving DecidableEq, Repr

/-- Browserbase credentials, passed explicitly on every call. -/
structure Config where
  apiKey : String
  projectId : String
deriving DecidableEq, Repr

/-- Optional Browserbase session options, from the jobs table schema. -/
structure SessionOptions where
  timeout : Option Int
  keepAlive : Option Bool
  region : Option String
  proxies : Option Bool
deriving DecidableEq, Repr

/-- A row of the jobs table (schema in convex.config.ts). -/
structure Job where
  params : String
  config : Config
  sessionOptions : Option SessionOptions
  userAction : String
  status : JobStatus
  webhookUrl : Option String
  callbackFunction : Option String
  scheduledFor : Option Int
  cronJobId : Option CronJobId
  sessionId : Option SessionRecordId
  result : Option String
  error : Option String
  sessionDuration : Option Int
  retryCount : Nat
  maxRetries : Int
  createdAt : Int
  startedAt : Option Int
  completedAt : Option Int
deriving DecidableEq, Repr

/-- A row of the sessions table (schema in convex.config.ts). -/
structure Session where
  sessionId : String
  projectId : String
  connectUrl : String
  seleniumRemoteUrl : String
  status : SessionStatus
  region : Option String
  createdAt : Int
  startedAt : Option Int
  endedAt : Option Int
  expiresAt : Int
  avgCpuUsage : Option Int
  memoryUsage : Option Int
  proxyBytes : Option Int
  cleanupAttempts : Option Nat
  cleanupStatus : Option CleanupStatus
  cleanupError : Option String
  cleanupCompletedAt : Option Int
deriving DecidableEq, Repr

/-- A row of the webhookDeliveries table (schema in convex.config.ts). -/
structure WebhookDelivery where
  jobId : JobId
  webhookUrl : String
  payloadEvent : String
  attemptNumber : Nat
  status : DeliveryStatus
  statusCode : Option Int
  responseBody : Option String
  error : Option String
  createdAt : Int
  sentAt : Option Int
deriving DecidableEq, Repr

/-- A row of the cronJobs table (schema in convex.config.ts). -/
structure CronJob where
  name : String
  cronExpression : String
  enabled : Bool
  jobParams : String
  config : Config
  sessionOptions : Option SessionOptions
  userAction : String
  webhookUrl : Option String
  callbackFunction : Option String
  lastRunAt : Option Int
  nextRunAt : Int
  runCount : Nat
  createdAt : Int
deriving DecidableEq, Repr

/-- The target of a `ctx.scheduler.runAfter` call, with its arguments. -/
inductive Task
  | executeJob (jobId : JobId)
  | cleanupSession (sessionRecordId : SessionRecordId) (attemptNumber : Option Nat)
  | sendWebhook (jobId : JobId) (webhookUrl : String) (attemptNumber : Nat)
  | userAction (name : String) (jobId : JobId) (connectUrl : String) (params : String)
  | watchdog (jobId : JobId) (startedAt : Int) (timeout : Int)
deriving DecidableEq, Repr

/-- One `ctx.scheduler.runAfter(delay, task)` call. -/
structure Scheduled where
  delay : Nat
  task : Task
deriving DecidableEq, Repr

/-- The Convex database state: one partial map per table. -/
structure DB where
  jobs : JobId → Option Job
  sessions : SessionRecordId → Option Session
  deliveries : List WebhookDelivery
  crons : List (CronJobId × CronJob)

/-- `ctx.db.patch` / `ctx.db.insert` on a keyed table. -/
def updateFn {α : Type} (f : Nat → Option α) (i : Nat) (x : α) : Nat → Option α :=
  fun j => if j = i then some x else f j

/-- Status text used in the cancelJob error message. -/
def statusText : JobStatus → String
  | .pending => "pending"
  | .queued => "queued"
  | .running => "running"
  | .completed => "completed"
  | .failed => "failed"
  | .cancelled => "cancelled"

/-- Arguments of the public scheduleJob mutation (jobs.ts lines 20-41). -/
structure ScheduleJobArgs where
  params : String
  config : Config
  sessionOptions : Option SessionOptions
  userAction : String
  webhookUrl : Option String
  callbackFunction : Option String
  maxRetries : Option Int
  scheduledFor : Option Int
deriving DecidableEq, Repr

/-- scheduleJob (jobs.ts lines 20-65): inserts the job with status pending and
retryCount 0 (maxRetries defaulting to 0), then enqueues the executor with
delay 0.  `newId` is the id Convex assigns to the inserted row. -/
def scheduleJob (now : Int) (db : DB) (newId : JobId) (args : ScheduleJobArgs) :
    DB × List Scheduled × JobId :=
  let job : Job :=
    { params := args.params
      config := args.config
      sessionOptions := args.sessionOptions
      userAction := args.userAction
      status := .pending
      webhookUrl := args.webhookUrl
      callbackFunction := args.callbackFunction
      scheduledFor := args.scheduledFor
      cronJobId := none
      sessionId := none
      result := none
      error := none
      sessionDuration := none
      retryCount := 0
      maxRetries := args.maxRetries.getD 0
      createdAt := now
      startedAt := none
      completedAt := none }
  ({ db with jobs := updateFn db.jobs newId job },
   [⟨0, Task.executeJob newId⟩],
   newId)

/-- cancelJob (jobs.ts lines 195-220): throws on a missing job and on a job
already completed or cancelled; otherwise patches status to cancelled with
completedAt, and schedules session cleanup when a session is linked. -/
def cancelJob (now : Int) (db : DB) (jobId : JobId) :
    Except String (DB × List Scheduled) :=
  match db.jobs jobId with
  | none => .error "Job not found"
  | some job =>
    if job.status = .completed ∨ job.status = .cancelled then
      .error ("Job already " ++ statusText job.status)
    else
      let job' : Job := { job with status := .cancelled, completedAt := some now }
      .ok ({ db with jobs := updateFn db.jobs jobId job' },
           match job.sessionId with
           | some sid => [⟨0, Task.cleanupSession sid none⟩]
           | none => [])

/-- completeJob (jobs.ts lines 269-309): patches status to completed with the
result, completedAt and sessionDuration, then schedules the webhook (if
configured) and session cleanup (if linked).  No guard on the current status. -/
def completeJob (now : Int) (db : DB) (jobId : JobId) (result : String)
    (metricsDuration : Option Int) : Except String (DB × List Scheduled) :=
  match db.jobs jobId with
  | none => .error "Job not found"
  | some job =>
    let job' : Job := { job with status := .completed, result := some result,
                                 completedAt := some now,
                                 sessionDuration := metricsDuration }
    .ok ({ db with jobs := updateFn db.jobs jobId job' },
         (match job.webhookUrl with
          | some url => [⟨0, Task.sendWebhook jobId url 1⟩]
          | none => []) ++
         (match job.sessionId with
          | some sid => [⟨0, Task.cleanupSession sid none⟩]
          | none => []))

/-- failJob (jobs.ts lines 315-373): if retryCount < maxRetries, patches the
job back to pending with retryCount incremented, schedules cleanup of the
current session, then reschedules the executor after
Math.pow(2, job.retryCount) * 1000 ms where job.retryCount is the value read
before the increment; otherwise patches the job to failed with completedAt and
schedules webhook and cleanup.  No guard on the current status. -/
def failJob (now : Int) (db : DB) (jobId : JobId) (error : String) :
    Except String (DB × List Scheduled) :=
  match db.jobs jobId with
  | none => .error "Job not found"
  | some job =>
    if (job.retryCount : Int) < job.maxRetries then
      let job' : Job := { job with status := .pending,
                                   retryCount := job.retryCount + 1,
                                   error := some error }
      .ok ({ db with jobs := updateFn db.jobs jobId job' },
           (match job.sessionId with
            | some sid => [⟨0, Task.cleanupSession sid none⟩]
            | none => []) ++
           [⟨2 ^ job.retryCount * 1000, Task.executeJob jobId⟩])
    else
      let job' : Job := { job with status := .failed, error := some error,
                                   completedAt := some now }
      .ok ({ db with jobs := updateFn db.jobs jobId job' },
           (match job.webhookUrl with
            | some url => [⟨0, Task.sendWebhook jobId url 1⟩]
            | none => []) ++
           (match job.sessionId with
            | some sid => [⟨0, Task.cleanupSession sid none⟩]
            | none => []))

/-- linkSession (jobs.ts lines 251-263): unconditionally patches the job with
the session id, status running and startedAt.  It reads nothing, checks
nothing, and makes no scheduler call (a patch on a missing document throws). -/
def linkSession (now : Int) (db : DB) (jobId : JobId)
    (sessionRecordId : SessionRecordId) : Except String (DB × List Scheduled) :=
  match db.jobs jobId with
  | none => .error "patch on missing document"
  | some job =>
    let job' : Job := { job with sessionId := some sessionRecordId,
                                 status := .running, startedAt := some now }
    .ok ({ db with jobs := updateFn db.jobs jobId job' }, [])

/-- The session fields returned by the Browserbase create-session API call. -/
structure SessionInfo where
  sessionId : String
  projectId : String
  connectUrl : String
  seleniumRemoteUrl : String
  status : SessionStatus
  region : Option String
  expiresAt : Int
deriving DecidableEq, Repr

/-- insertSession (sessions module): the row created for a fresh session. -/
def insertedSession (now : Int) (info : SessionInfo) : Session :=
  { sessionId := info.sessionId
    projectId := info.projectId
    connectUrl := info.connectUrl
    seleniumRemoteUrl := info.seleniumRemoteUrl
    status := info.status
    region := info.region
    createdAt := now
    startedAt := none
    endedAt := none
    expiresAt := info.expiresAt
    avgCpuUsage := none
    memoryUsage := none
    proxyBytes := none
    cleanupAttempts := none
    cleanupStatus := none
    cleanupError := none
    cleanupCompletedAt := none }

/-- executeJob (executor module): loads the job (throwing "Job not found" if
missing), creates a Browserbase session (outcome passed as `createResult`;
on success the session row is inserted at `newSessionRecordId`), links the
session to the job, and schedules the user action with delay 0.  Any error in
this chain is caught and routed to failJob.  The job's current status is never
inspected. -/
def executeJob (now : Int) (db : DB) (jobId : JobId)
    (newSessionRecordId : SessionRecordId)
    (createResult : Except String SessionInfo) :
    Except String (DB × List Scheduled) :=
  match db.jobs jobId with
  | none => failJob now db jobId "Job not found"
  | some job =>
    match createResult with
    | .error e => failJob now db jobId e
    | .ok info =>
      let db1 : DB :=
        { db with sessions := updateFn db.sessions newSessionRecordId
                                (insertedSession now info) }
      match linkSession now db1 jobId newSessionRecordId with
      | .error e => failJob now db1 jobId e
      | .ok (db2, ts) =>
        .ok (db2, ts ++ [⟨0, Task.userAction job.userAction jobId
                              info.connectUrl job.params⟩])

/-- markCleanupSuccess (sessions module): patches the session with cleanup
success; the status is the Browserbase-returned status, defaulting to
COMPLETED when none was passed. -/
def markCleanupSuccess (now : Int) (s : Session)
    (browserbaseStatus : Option SessionStatus) : Session :=
  { s with status := browserbaseStatus.getD .COMPLETED,
           cleanupStatus := some .success,
           cleanupCompletedAt := some now,
           endedAt := some now }

/-- incrementCleanupAttempt (sessions module): records the attempt number and
marks the cleanup as pending. -/
def incrementCleanupAttempt (s : Session) (attemptNumber : Nat) : Session :=
  { s with cleanupAttempts := some attemptNumber,
           cleanupStatus := some .pending }

/-- recordCleanupError (sessions module): records the last cleanup error. -/
def recordCleanupError (s : Session) (error : String) : Session :=
  { s with cleanupError := some error }

/-- markCleanupFailed (sessions module): marks the cleanup permanently failed
and records the error.  The status field is deliberately NOT touched — the
session may still be running in Browserbase. -/
def markCleanupFailed (s : Session) (error : String) : Session :=
  { s with cleanupStatus := some .failed, cleanupError := some error }

/-- cleanupSession (sessions module, the retrying version with
MAX_ATTEMPTS = 3): no-op when the record is missing or cleanup already
succeeded; short-circuit success when Browserbase already reports
COMPLETED/TIMED_OUT; otherwise records the attempt and calls the provider
release API (outcome passed as `releaseResult`).  On release failure it
records the error and either reschedules itself after
Math.pow(2, attemptNumber) * 1000 ms or, on the final attempt, marks the
cleanup permanently failed.  The returned Bool says whether the provider
release call was made. -/
def cleanupSession (now : Int) (db : DB) (sessionRecordId : SessionRecordId)
    (attemptNumber : Option Nat) (releaseResult : Except String SessionStatus) :
    DB × List Scheduled × Bool :=
  let att := attemptNumber.getD 1
  match db.sessions sessionRecordId with
  | none => (db, [], false)
  | some s =>
    if s.cleanupStatus = some .success then
      (db, [], false)
    else if s.status = .COMPLETED ∨ s.status = .TIMED_OUT then
      let s' := markCleanupSuccess now s none
      ({ db with sessions := updateFn db.sessions sessionRecordId s' },
       [], false)
    else
      let s1 := incrementCleanupAttempt s att
      match releaseResult with
      | .ok bbStatus =>
        let s' := markCleanupSuccess now s1 (some bbStatus)
        ({ db with sessions := updateFn db.sessions sessionRecordId s' },
         [], true)
      | .error e =>
        let s2 := recordCleanupError s1 e
        if att < 3 then
          ({ db with sessions := updateFn db.sessions sessionRecordId s2 },
           [⟨2 ^ att * 1000, Task.cleanupSession sessionRecordId (some (att + 1))⟩],
           true)
        else
          let s' := markCleanupFailed s2 ("Failed after 3 attempts: " ++ e)
          ({ db with sessions := updateFn db.sessions sessionRecordId s' },
           [], true)

/-- watchdog (timeout module): re-reads the job; no-op when missing or no
longer running; when still running and elapsed >= timeout, calls failJob with
a timeout message (Math.round(timeout / 1000) is floor((timeout + 500) / 1000)
for the nonnegative timeouts used). -/
def watchdog (now : Int) (db : DB) (jobId : JobId) (startedAt : Int)
    (timeout : Int) : Except String (DB × List Scheduled) :=
  match db.jobs jobId with
  | none => .ok (db, [])
  | some job =>
    if job.status ≠ .running then
      .ok (db, [])
    else if timeout ≤ now - startedAt then
      failJob now db jobId
        ("Job timed out after " ++ toString ((timeout + 500) / 1000) ++ " seconds")
    else
      .ok (db, [])

/-- The outcome of the webhook `fetch` call: a resolved HTTP response of any
status code, or a rejected promise (network error). -/
inductive FetchOutcome
  | response (statusCode : Int) (body : String)
  | networkError (message : String)
deriving DecidableEq, Repr

/-- sendWebhook (webhooks.ts lines 8-95): no-op when the job is missing;
otherwise creates a delivery record (status pending), POSTs the payload, and
patches the record: on a resolved response (any status code) marks it sent
with the code and the response body truncated to its first 1000 characters;
on a thrown network error marks it failed with the error message (defaulting
to "Unknown error" when empty) and, when attemptNumber < 3, reschedules
itself after Math.pow(2, attemptNumber) * 1000 ms.  The jobs table is never
written. -/
def sendWebhook (now : Int) (db : DB) (jobId : JobId) (webhookUrl : String)
    (attemptNumber : Nat) (fetch : FetchOutcome) : DB × List Scheduled :=
  match db.jobs jobId with
  | none => (db, [])
  | some job =>
    let event := if job.status = .completed then "job.completed" else "job.failed"
    let created : WebhookDelivery :=
      { jobId := jobId, webhookUrl := webhookUrl, payloadEvent := event,
        attemptNumber := attemptNumber, status := .pending, statusCode := none,
        responseBody := none, error := none, createdAt := now, sentAt := none }
    match fetch with
    | .response code body =>
      let final := { created with status := DeliveryStatus.sent,
                                  statusCode := some code,
                                  responseBody := some (body.take 1000),
                                  sentAt := some now }
      ({ db with deliveries := db.deliveries ++ [final] }, [])
    | .networkError msg =>
      let final := { created with status := DeliveryStatus.failed,
                                  error := some (if msg = "" then "Unknown error" else msg) }
      if attemptNumber < 3 then
        ({ db with deliveries := db.deliveries ++ [final] },
         [⟨2 ^ attemptNumber * 1000, Task.sendWebhook jobId webhookUrl (attemptNumber + 1)⟩])
      else
        ({ db with deliveries := db.deliveries ++ [final] }, [])

/-- Arguments of the createCronJob mutation (cronJobs.ts lines 34-55). -/
structure CreateCronJobArgs where
  name : String
  cronExpression : String
  jobParams : String
  config : Config
  sessionOptions : Option SessionOptions
  userAction : String
  webhookUrl : Option String
  callbackFunction : Option String
deriving DecidableEq, Repr

/-- createCronJob (cronJobs.ts lines 34-94): validates the cron expression
(throwing on a malformed one), rejects a duplicate name via lookup on the
by_name index, computes nextRunAt = calculateNextRun(expression, now) and
inserts the definition with enabled = true, runCount = 0.  The external
cron-parser is modelled by `cron : expression → timestamp → Option Int`
(none = parse failure, some t = next occurrence after the timestamp). -/
def createCronJob (now : Int) (db : DB) (newId : CronJobId)
    (args : CreateCronJobArgs) (cron : String → Int → Option Int) :
    Except String (DB × CronJobId) :=
  match cron args.cronExpression now with
  | none => .error ("Invalid cron expression: " ++ args.cronExpression)
  | some nextRunAt =>
    match db.crons.find? (fun p => p.2.name = args.name) with
    | some _ =>
      .error ("Cron job with name " ++ args.name ++ " already exists")
    | none =>
      let cj : CronJob :=
        { name := args.name
          cronExpression := args.cronExpression
          enabled := true
          jobParams := args.jobParams
          config := args.config
          sessionOptions := args.sessionOptions
          userAction := args.userAction
          webhookUrl := args.webhookUrl
          callbackFunction := args.callbackFunction
          lastRunAt := none
          nextRunAt := nextRunAt
          runCount := 0
          createdAt := now }
      .ok ({ db with crons := (newId, cj) :: db.crons }, newId)

/-- The view of a cron job returned by getCronJob (cronJobs.ts lines 165-198). -/
structure CronJobView where
  id : CronJobId
  name : String
  cronExpression : String
  enabled : Bool
  userAction : String
  webhookUrl : Option String
  lastRunAt : Option Int
  nextRunAt : Int
  runCount : Nat
  createdAt : Int
deriving DecidableEq, Repr

/-- getCronJob (cronJobs.ts lines 165-198): pure read returning the view of
the definition, or none when missing. -/
def getCronJob (db : DB) (cronJobId : CronJobId) : Option CronJobView :=
  (db.crons.find? (fun p => p.1 = cronJobId)).map fun p =>
    { id := p.1
      name := p.2.name
      cronExpression := p.2.cronExpression
      enabled := p.2.enabled
      userAction := p.2.userAction
      webhookUrl := p.2.webhookUrl
      lastRunAt := p.2.lastRunAt
      nextRunAt := p.2.nextRunAt
      runCount := p.2.runCount
      createdAt := p.2.createdAt }

/-- The scheduler calls emitted by a mutation outcome ([] on a throw, since a
throwing mutation is rolled back). -/
def tasksOf : Except String (DB × List Scheduled) → List Scheduled
  | .ok (_, ts) => ts
  | .error _ => []

/-- The database state after a mutation outcome (the original state on a
throw, since a throwing mutation is rolled back). -/
def dbOf (db : DB) : Except String (DB × List Scheduled) → DB
  | .ok (db', _) => db'
  | .error _ => db

/-- The status of the job stored at `jobId`. -/
def jobStatusAt (db : DB) (jobId : JobId) : Option JobStatus :=
  (db.jobs jobId).map Job.status

/-! Concrete fixtures used by witnesses and counterexamples. -/

/-- The empty database. -/
def emptyDB : DB :=
  { jobs := fun _ => none, sessions := fun _ => none,
    deliveries := [], crons := [] }

/-- Sample credentials. -/
def sampleConfig : Config := { apiKey := "key", projectId := "proj" }

/-- A sample job row. -/
def sampleJob : Job :=
  { params := "p", config := sampleConfig, sessionOptions := none,
    userAction := "internal.auto.run", status := .running,
    webhookUrl := none, callbackFunction := none, scheduledFor := none,
    cronJobId := none, sessionId := none, result := none, error := none,
    sessionDuration := none, retryCount := 0, maxRetries := 0,
    createdAt := 0, startedAt := some 0, completedAt := none }

/-- A database holding one job at id 0. -/
def dbWith (j : Job) : DB :=
  { emptyDB with jobs := fun i => if i = 0 then some j else none }

/-- A sample session row. -/
def sampleSession : Session :=
  { sessionId := "bb-1", projectId := "proj", connectUrl := "wss://c",
    seleniumRemoteUrl := "http://s", status := .RUNNING, region := none,
    createdAt := 0, startedAt := none, endedAt := none, expiresAt := 1000,
    avgCpuUsage := none, memoryUsage := none, proxyBytes := none,
    cleanupAttempts := none, cleanupStatus := none, cleanupError := none,
    cleanupCompletedAt := none }

/-- A database holding one session at id 0. -/
def dbWithSession (s : Session) : DB :=
  { emptyDB with sessions := fun i => if i = 0 then some s else none }

/-- A sample create-session API result. -/
def sampleInfo : SessionInfo :=
  { sessionId := "bb-1", projectId := "proj", connectUrl := "wss://c",
    seleniumRemoteUrl := "http://s", status := .RUNNING, region := none,
    expiresAt := 1000 }

/-- A job that still has retry budget: retryCount 0, maxRetries 1. -/
def retryJob : Job := { sampleJob with retryCount := 0, maxRetries := 1 }

/-- A job whose retry budget is exhausted: retryCount = maxRetries = 2. -/
def exhaustedJob : Job := { sampleJob with retryCount := 2, maxRetries := 2 }

/-- The row failJob writes for exhaustedJob failing at time 7. -/
def exhaustedJobFailed : Job :=
  { exhaustedJob with status := .failed, error := some "boom",
                      completedAt := some 7 }

/-! Claims. -/

/-- Claim C10: scheduleJob stores the optional scheduledFor timestamp on the
job record, but for every call — whatever scheduledFor holds — the executor
is enqueued with delay 0, so scheduledFor has no effect on when the job is
executed. -/
theorem scheduleJob_ignores_scheduledFor (now : Int) (db : DB) (newId : JobId)
    (args : ScheduleJobArgs) :
    (scheduleJob now db newId args).2.1 = [⟨0, Task.executeJob newId⟩] ∧
    ((scheduleJob now db newId args).1.jobs newId).map Job.scheduledFor
      = some args.scheduledFor := by
  constructor
  · rfl
  · simp [scheduleJob, updateFn]

/-- Claim C4 (the code does not do what the claim says): linkSession — the
job-start transition to running — makes no scheduler call at all, so no
timeout watchdog is ever scheduled at job-start time (nor anywhere else: no
operation in the component emits a watchdog task). -/
theorem linkSession_schedules_nothing (now : Int) (db : DB) (jobId : JobId)
    (sessionRecordId : SessionRecordId) :
    tasksOf (linkSession now db jobId sessionRecordId) = [] := by
  cases h : db.jobs jobId <;> simp [linkSession, tasksOf, h]

/-- Claim C1: scheduleJob establishes retryCount ≤ maxRetries (for a
nonnegative maxRetries argument), failJob preserves the bound, and when
failJob hits a job whose retryCount equals maxRetries — the (n+1)-th failure
with maxRetries = n — the job becomes failed with completedAt set and
retryCount is not incremented further. -/
theorem failJob_retry_budget :
    (∀ now db newId args j,
        (scheduleJob now db newId args).1.jobs newId = some j →
        0 ≤ args.maxRetries.getD 0 →
        (j.retryCount : Int) ≤ j.maxRetries) ∧
    (∀ now db jobId job e j,
        db.jobs jobId = some job →
        (job.retryCount : Int) ≤ job.maxRetries →
        (dbOf db (failJob now db jobId e)).jobs jobId = some j →
        (j.retryCount : Int) ≤ j.maxRetries) ∧
    (∀ now db jobId job e j,
        db.jobs jobId = some job →
        (job.retryCount : Int) = job.maxRetries →
        (dbOf db (failJob now db jobId e)).jobs jobId = some j →
        j.status = .failed ∧ j.completedAt = some now ∧
        j.retryCount = job.retryCount) := by
  refine ⟨?_, ?_, ?_⟩
  · intro now db newId args j hj hnn
    simp [scheduleJob, updateFn] at hj
    subst hj
    simpa using hnn
  · intro now db jobId job e j hdb hle hj
    by_cases hlt : (job.retryCount : Int) < job.maxRetries
    · simp [failJob, dbOf, hdb, hlt, updateFn] at hj
      subst hj
      push_cast
      omega
    · simp [failJob, dbOf, hdb, hlt, updateFn] at hj
      subst hj
      exact hle
  · intro now db jobId job e j hdb heq hj
    have hlt : ¬ (job.retryCount : Int) < job.maxRetries := by omega
    simp [failJob, dbOf, hdb, hlt, updateFn] at hj
    subst hj
    exact ⟨rfl, rfl, rfl⟩

/-- Claim C1 witness: a job with retryCount = maxRetries = 2 failed a third
time is marked failed with completedAt set and retryCount still 2. -/
theorem failJob_retry_budget_witness :
    exhaustedJobFailed.status = JobStatus.failed ∧
    exhaustedJobFailed.completedAt = some 7 ∧
    exhaustedJobFailed.retryCount = exhaustedJob.retryCount :=
  failJob_retry_budget.2.2 7 (dbWith exhaustedJob) 0 exhaustedJob "boom"
    exhaustedJobFailed (by decide) (by decide) (by decide)

/-- Claim C2 counterexample: on the first failure of a job with maxRetries =
1 (so retry attempt 1 is about to be scheduled), failJob schedules the
executor re-run after 1000 ms (2^0 seconds), not the 2000 ms (2^1 seconds)
the claim states. -/
theorem failJob_backoff_counterexample :
    (tasksOf (failJob 7 (dbWith retryJob) 0 "boom")).map Scheduled.delay
      = [1000] ∧
    (tasksOf (failJob 7 (dbWith retryJob) 0 "boom")).map Scheduled.delay
      ≠ [2000] := by
  constructor
  · decide
  · decide

/-- Claim C2 amended: when failJob has retry budget remaining, the executor
re-run before retry attempt k = retryCount + 1 is scheduled after
2^retryCount * 1000 ms, i.e. 2^(k-1) seconds: 1s before attempt 1, 2s before
attempt 2, 4s before attempt 3. -/
theorem failJob_backoff (now : Int) (db : DB) (jobId : JobId) (job : Job)
    (e : String) (h : db.jobs jobId = some job)
    (hr : (job.retryCount : Int) < job.maxRetries) :
    tasksOf (failJob now db jobId e) =
      (match job.sessionId with
       | some sid => [⟨0, Task.cleanupSession sid none⟩]
       | none => []) ++
      [⟨2 ^ job.retryCount * 1000, Task.executeJob jobId⟩] := by
  simp [failJob, tasksOf, h, hr]

/-- Claim C2 witness: the amended backoff evaluated on a first failure —
delay 2^0 * 1000 = 1000 ms. -/
theorem failJob_backoff_witness :
    tasksOf (failJob 7 (dbWith retryJob) 0 "boom")
      = [⟨2 ^ (0 : Nat) * 1000, Task.executeJob 0⟩] := by
  have h := failJob_backoff 7 (dbWith retryJob) 0 retryJob "boom"
    (by decide) (by decide)
  simpa [retryJob] using h

/-- A job in the terminal status cancelled. -/
def cancelledJob : Job := { sampleJob with status := .cancelled }

/-- A job in the terminal status completed. -/
def completedJob : Job := { sampleJob with status := .completed }

/-- A job in the terminal status failed. -/
def failedJob : Job := { sampleJob with status := .failed }

/-- Claim C3 counterexample: completeJob invoked on a job whose status is the
terminal value cancelled moves it to completed — the terminal status is not
preserved. -/
theorem completeJob_leaves_cancelled :
    jobStatusAt (dbOf (dbWith cancelledJob)
        (completeJob 9 (dbWith cancelledJob) 0 "r" none)) 0
      = some JobStatus.completed ∧
    some JobStatus.completed ≠ some JobStatus.cancelled := by
  constructor
  · decide
  · decide

/-- Claim C3 amended: only cancelJob guards terminal statuses, and only the
two it names: on a job already completed or cancelled it throws "Job already
..." (mutating nothing, since a throwing mutation rolls back), but it moves a
failed job to cancelled; completeJob has no terminal-status guard and sets
status completed on any existing job; and failJob likewise re-runs the retry
decision on any existing job whatever its current status. -/
theorem terminal_status_guards :
    (∀ now db jobId job, db.jobs jobId = some job →
        job.status = .completed ∨ job.status = .cancelled →
        cancelJob now db jobId
          = .error ("Job already " ++ statusText job.status)) ∧
    (∀ now db jobId job, db.jobs jobId = some job → job.status = .failed →
        jobStatusAt (dbOf db (cancelJob now db jobId)) jobId
          = some .cancelled) ∧
    (∀ now db jobId job r m, db.jobs jobId = some job →
        jobStatusAt (dbOf db (completeJob now db jobId r m)) jobId
          = some .completed) ∧
    (∀ now db jobId job e, db.jobs jobId = some job →
        jobStatusAt (dbOf db (failJob now db jobId e)) jobId
          = (if (job.retryCount : Int) < job.maxRetries then some .pending
             else some .failed)) := by
  refine ⟨?_, ?_, ?_, ?_⟩
  · intro now db jobId job hdb hterm
    simp [cancelJob, hdb, hterm]
  · intro now db jobId job hdb hf
    have hterm : ¬ (job.status = JobStatus.completed ∨
        job.status = JobStatus.cancelled) := by
      rw [hf]; decide
    simp [cancelJob, hdb, hterm, dbOf, jobStatusAt, updateFn]
  · intro now db jobId job r m hdb
    simp [completeJob, hdb, dbOf, jobStatusAt, updateFn]
  · intro now db jobId job e hdb
    by_cases hlt : (job.retryCount : Int) < job.maxRetries
    · simp [failJob, hdb, hlt, dbOf, jobStatusAt, updateFn]
    · simp [failJob, hdb, hlt, dbOf, jobStatusAt, updateFn]

/-- Claim C3 witness: cancelJob on an already completed job throws "Job
already completed". -/
theorem terminal_status_guards_witness :
    cancelJob 3 (dbWith completedJob) 0
      = .error ("Job already " ++ statusText completedJob.status) :=
  terminal_status_guards.1 3 (dbWith completedJob) 0 completedJob
    (by decide) (Or.inl (by decide))

/-- Claim C9: linkSession unconditionally patches an existing job to status
running with startedAt = now, whatever its current status; and executeJob —
which never re-reads the job status before linking — run on a job cancelled
while pending links the freshly created session and moves the job back to
running. -/
theorem linkSession_unconditional :
    (∀ now db jobId sid job, db.jobs jobId = some job →
        jobStatusAt (dbOf db (linkSession now db jobId sid)) jobId
          = some .running ∧
        ((dbOf db (linkSession now db jobId sid)).jobs jobId).map Job.startedAt
          = some (some now)) ∧
    (∀ now db jobId sid info job, db.jobs jobId = some job →
        job.status = .cancelled →
        jobStatusAt (dbOf db
            (executeJob now db jobId sid (Except.ok info))) jobId
          = some .running) := by
  constructor
  · intro now db jobId sid job hdb
    constructor
    · simp [linkSession, hdb, dbOf, jobStatusAt, updateFn]
    · simp [linkSession, hdb, dbOf, updateFn]
  · intro now db jobId sid info job hdb hc
    simp [executeJob, linkSession, hdb, dbOf, jobStatusAt, updateFn]

/-- Claim C9 witness: the executor run on a cancelled job with a successfully
created session leaves the job running. -/
theorem linkSession_unconditional_witness :
    jobStatusAt (dbOf (dbWith cancelledJob)
        (executeJob 5 (dbWith cancelledJob) 0 0 (Except.ok sampleInfo))) 0
      = some JobStatus.running :=
  linkSession_unconditional.2 5 (dbWith cancelledJob) 0 0 sampleInfo
    cancelledJob (by decide) (by decide)

/-- Claim C6: cleanupSession on a session whose cleanupStatus is already
success returns the database unchanged (every field of the session record is
unchanged), makes no provider release call, and schedules no retry. -/
theorem cleanupSession_idempotent (now : Int) (db : DB)
    (sid : SessionRecordId) (s : Session) (att : Option Nat)
    (rel : Except String SessionStatus)
    (h : db.sessions sid = some s)
    (hs : s.cleanupStatus = some .success) :
    cleanupSession now db sid att rel = (db, [], false) := by
  simp [cleanupSession, h, hs]

/-- A session whose cleanup already succeeded. -/
def cleanedSession : Session :=
  { sampleSession with status := .COMPLETED, cleanupAttempts := some 1,
                       cleanupStatus := some .success,
                       cleanupCompletedAt := some 3, endedAt := some 3 }

/-- Claim C6 witness: a second cleanup call on an already cleaned session is
a no-op. -/
theorem cleanupSession_idempotent_witness :
    cleanupSession 9 (dbWithSession cleanedSession) 0 none
        (Except.error "network down")
      = (dbWithSession cleanedSession, [], false) :=
  cleanupSession_idempotent 9 (dbWithSession cleanedSession) 0 cleanedSession
    none (Except.error "network down") (by decide) (by decide)

/-- Claim C5: when the provider release call fails on the final (3rd) cleanup
attempt, cleanupSession marks cleanupStatus failed and records the error; the
session's provider status field is left exactly as it was — in particular it
does not become a closed state (COMPLETED or TIMED_OUT), which on this branch
it was not before cleanup began — and no further retry is scheduled. -/
theorem cleanupSession_final_failure (now : Int) (db : DB)
    (sid : SessionRecordId) (s : Session) (e : String)
    (h : db.sessions sid = some s)
    (hcs : s.cleanupStatus ≠ some .success)
    (hc1 : s.status ≠ .COMPLETED) (hc2 : s.status ≠ .TIMED_OUT) :
    (∀ s', (cleanupSession now db sid (some 3) (Except.error e)).1.sessions sid
        = some s' →
      s'.cleanupStatus = some .failed ∧
      s'.cleanupError = some ("Failed after 3 attempts: " ++ e) ∧
      s'.status = s.status ∧
      s'.status ≠ .COMPLETED ∧ s'.status ≠ .TIMED_OUT) ∧
    (cleanupSession now db sid (some 3) (Except.error e)).2.1 = [] := by
  have hor : ¬ (s.status = SessionStatus.COMPLETED ∨
      s.status = SessionStatus.TIMED_OUT) := by
    intro hx
    cases hx with
    | inl h1 => exact hc1 h1
    | inr h2 => exact hc2 h2
  constructor
  · intro s' hs'
    simp [cleanupSession, h, hcs, hor, incrementCleanupAttempt,
      recordCleanupError, markCleanupFailed, updateFn] at hs'
    subst hs'
    exact ⟨rfl, rfl, rfl, hc1, hc2⟩
  · simp [cleanupSession, h, hcs, hor]

/-- A session mid-cleanup: two failed attempts recorded, still RUNNING at the
provider. -/
def strugglingSession : Session :=
  { sampleSession with cleanupAttempts := some 2,
                       cleanupStatus := some .pending,
                       cleanupError := some "boom" }

/-- The row the final failed cleanup attempt writes for strugglingSession. -/
def strugglingSessionFailed : Session :=
  { strugglingSession with cleanupAttempts := some 3,
                           cleanupStatus := some .failed,
                           cleanupError :=
                             some "Failed after 3 attempts: still busy" }

/-- Claim C5 witness: the 3rd failed release attempt on a still-RUNNING
session marks cleanup failed, keeps status RUNNING, and schedules nothing. -/
theorem cleanupSession_final_failure_witness :
    (strugglingSessionFailed.cleanupStatus = some CleanupStatus.failed ∧
     strugglingSessionFailed.cleanupError
       = some ("Failed after 3 attempts: " ++ "still busy") ∧
     strugglingSessionFailed.status = strugglingSession.status ∧
     strugglingSessionFailed.status ≠ SessionStatus.COMPLETED ∧
     strugglingSessionFailed.status ≠ SessionStatus.TIMED_OUT) ∧
    (cleanupSession 11 (dbWithSession strugglingSession) 0 (some 3)
        (Except.error "still busy")).2.1 = [] :=
  ⟨(cleanupSession_final_failure 11 (dbWithSession strugglingSession) 0
      strugglingSession "still busy" (by decide) (by decide) (by decide)
      (by decide)).1 strugglingSessionFailed (by decide),
   (cleanupSession_final_failure 11 (dbWithSession strugglingSession) 0
      strugglingSession "still busy" (by decide) (by decide) (by decide)
      (by decide)).2⟩

/-- Claim C7 counterexample: a delivery attempt that receives a non-2xx HTTP
response (here status 500 on attempt 1) is recorded as sent — not failed —
and no further delivery attempt is scheduled, because fetch only rejects on
network errors. -/
theorem sendWebhook_non2xx :
    ((sendWebhook 3 (dbWith completedJob) 0 "https://h.example" 1
        (FetchOutcome.response 500 "oops")).1.deliveries).map
          WebhookDelivery.status
      = [DeliveryStatus.sent] ∧
    DeliveryStatus.sent ≠ DeliveryStatus.failed ∧
    (sendWebhook 3 (dbWith completedJob) 0 "https://h.example" 1
        (FetchOutcome.response 500 "oops")).2 = [] := by
  refine ⟨by decide, by decide, by decide⟩

/-- Claim C7 amended: only a thrown network error marks the delivery failed,
recording the error message, and reschedules delivery after
2^attemptNumber * 1000 ms exactly when attemptNumber < 3; a resolved HTTP
response of any status code (2xx or not) is recorded as sent with the stored
response body truncated to its first 1000 characters and no retry; and in
every case the jobs table is never written, so a delivery outcome never
changes the job's status. -/
theorem sendWebhook_failure_handling (now : Int) (db : DB) (jobId : JobId)
    (url : String) (attempt : Nat) (job : Job)
    (h : db.jobs jobId = some job) :
    (∀ msg, msg ≠ "" →
      ((sendWebhook now db jobId url attempt
          (FetchOutcome.networkError msg)).1.deliveries).map
            (fun d => (d.status, d.error))
        = db.deliveries.map (fun d => (d.status, d.error))
          ++ [(DeliveryStatus.failed, some msg)] ∧
      (sendWebhook now db jobId url attempt
          (FetchOutcome.networkError msg)).2
        = (if attempt < 3 then
            [⟨2 ^ attempt * 1000, Task.sendWebhook jobId url (attempt + 1)⟩]
           else [])) ∧
    (∀ code body,
      ((sendWebhook now db jobId url attempt
          (FetchOutcome.response code body)).1.deliveries).map
            (fun d => (d.status, d.responseBody))
        = db.deliveries.map (fun d => (d.status, d.responseBody))
          ++ [(DeliveryStatus.sent, some (body.take 1000))] ∧
      (sendWebhook now db jobId url attempt
          (FetchOutcome.response code body)).2 = []) ∧
    (∀ fetch, (sendWebhook now db jobId url attempt fetch).1.jobs
      = db.jobs) := by
  refine ⟨?_, ?_, ?_⟩
  · intro msg hmsg
    constructor
    · by_cases hlt : attempt < 3 <;> simp [sendWebhook, h, hmsg, hlt]
    · by_cases hlt : attempt < 3 <;> simp [sendWebhook, h, hlt]
  · intro code body
    constructor
    · simp [sendWebhook, h]
    · simp [sendWebhook, h]
  · intro fetch
    cases fetch with
    | response code body => simp [sendWebhook, h]
    | networkError msg =>
      by_cases hlt : attempt < 3 <;> simp [sendWebhook, h, hlt]

/-- Claim C7 witness: a network error on attempt 1 for an existing job —
delivery marked failed with the message and a retry scheduled after
2^1 * 1000 = 2000 ms. -/
theorem sendWebhook_failure_handling_witness :
    ((sendWebhook 3 (dbWith completedJob) 0 "https://h.example" 1
        (FetchOutcome.networkError "ECONNREFUSED")).1.deliveries).map
          (fun d => (d.status, d.error))
      = (dbWith completedJob).deliveries.map (fun d => (d.status, d.error))
        ++ [(DeliveryStatus.failed, some "ECONNREFUSED")] ∧
    (sendWebhook 3 (dbWith completedJob) 0 "https://h.example" 1
        (FetchOutcome.networkError "ECONNREFUSED")).2
      = (if 1 < 3 then
          [⟨2 ^ 1 * 1000, Task.sendWebhook 0 "https://h.example" 2⟩]
         else []) :=
  (sendWebhook_failure_handling 3 (dbWith completedJob) 0 "https://h.example"
      1 completedJob (by decide)).1 "ECONNREFUSED" (by decide)

/-- Sample arguments for createCronJob. -/
def sampleCronArgs : CreateCronJobArgs :=
  { name := "hourly-scrape", cronExpression := "0 * * * *", jobParams := "p",
    config := sampleConfig, sessionOptions := none,
    userAction := "internal.auto.run", webhookUrl := none,
    callbackFunction := none }

/-- An hourly cron parser stub: next occurrence one hour after the given
time (strictly in the future, as cron-parser's next() is). -/
def hourlyCron : String → Int → Option Int := fun _ t => some (t + 3600000)

/-- Claim C8: createCronJob on a parseable expression and an unused name,
followed immediately by getCronJob on the returned id, yields a record with
enabled = true, runCount = 0 and nextRunAt strictly greater than the creation
time — given the external cron parser's documented property that the next
occurrence is strictly after the time it is asked from. -/
theorem createCronJob_roundtrip (now : Int) (db : DB) (newId : CronJobId)
    (args : CreateCronJobArgs) (cron : String → Int → Option Int) (nra : Int)
    (hparse : cron args.cronExpression now = some nra)
    (hnext : now < nra)
    (hname : db.crons.find? (fun p => p.2.name = args.name) = none) :
    match createCronJob now db newId args cron with
    | .error _ => False
    | .ok (db', id) =>
      match getCronJob db' id with
      | none => False
      | some view =>
        view.enabled = true ∧ view.runCount = 0 ∧ now < view.nextRunAt := by
  simp [createCronJob, hparse, hname, getCronJob, List.find?]
  exact hnext

/-- Claim C8 witness: creating an hourly cron job in an empty database and
reading it back yields enabled, runCount 0 and a future nextRunAt. -/
theorem createCronJob_roundtrip_witness :
    (match createCronJob 0 emptyDB 0 sampleCronArgs hourlyCron with
    | .error _ => False
    | .ok (db', id) =>
      match getCronJob db' id with
      | none => False
      | some view =>
        view.enabled = true ∧ view.runCount = 0 ∧ (0 : Int) < view.nextRunAt) :=
  createCronJob_roundtrip 0 emptyDB 0 sampleCronArgs hourlyCron 3600000
    (by decide) (by decide) (by decide)

end ConvexStagehand
